import Mathlib

/-!
Shallow embedding of the MeatMath Pro server authorization core.

The definitions below translate the TypeScript source:
* `src/server/storage.ts` (`DatabaseStorage`): the tenant store is modelled as
  in-memory lists of rows; each storage method becomes a pure function on `Store`.
* `src/unnamed/part_000` (`registerRoutes`): each Express route handler becomes a
  pure function from the store and the request data to an HTTP `Response`
  (and the possibly-updated store for mutating handlers).
* `src/server/middleware/security.ts` (`validateOrganizationAccess`).
* `src/unnamed/part_008` (drizzle schema): row shapes; fields irrelevant to every
  claim (timestamps of no behavioural use, jsonb blobs, float aggregates) are
  elided, all fields read by the translated code are kept.

JavaScript truthiness that the source relies on is modelled explicitly:
`member?.role || null` maps an empty-string role to `null`, and
`req.params.orgId || req.body.organizationId` falls through on empty strings.
-/

namespace MeatMath

/-- Row of the `organization_members` table (schema: organizationId, userId,
role with values owner/admin/editor/viewer stored as a string, isActive). -/
structure OrganizationMember where
  organizationId : String
  userId : String
  role : String
  isActive : Bool
deriving Repr, DecidableEq

/-- Row of the `organizations` table (only the fields the handlers read). -/
structure Organization where
  id : String
  name : String
deriving Repr, DecidableEq

/-- Row of the `customers` table (fields the translated code reads or writes). -/
structure Customer where
  id : String
  organizationId : String
  name : String
  isActive : Bool
  createdAt : Nat
  updatedAt : Nat
deriving Repr, DecidableEq

/-- Row of the `species` table. -/
structure Species where
  id : String
  name : String
  category : String
  isActive : Bool
deriving Repr, DecidableEq

/-- Row of the `processing_records` table. -/
structure ProcessingRecord where
  id : String
  organizationId : String
  processingDate : String
deriving Repr, DecidableEq

/-- Row of the `inventory_items` table. -/
structure InventoryItem where
  id : String
  organizationId : String
  name : String
  isActive : Bool
deriving Repr, DecidableEq

/-- Row of the `invoices` table. -/
structure Invoice where
  id : String
  organizationId : String
  total : String
deriving Repr, DecidableEq

/-- Row of the `cut_instructions` table. -/
structure CutInstruction where
  id : String
  organizationId : String
  instructions : String
deriving Repr, DecidableEq

/-- The tenant store: the tables touched by the translated handlers. -/
structure Store where
  organizations : List Organization
  organizationMembers : List OrganizationMember
  customers : List Customer
  species : List Species
  processingRecords : List ProcessingRecord
  inventoryItems : List InventoryItem
  invoices : List Invoice
  cutInstructions : List CutInstruction
deriving Repr, DecidableEq

/-- `DatabaseStorage.getUserRole` (storage.ts lines 195-205): select the first
`organization_members` row matching userId, organizationId and `isActive = true`,
then `member?.role || null` — an absent row, and also an empty-string role
(JS falsiness), yield `null`. This total string-keyed lookup covers well-formed
identifiers only: `organization_id` is a uuid column, so against a malformed
organization id the real query raises instead of returning a row set; that
error path is modelled separately by `FallibleStore`, not by this function. -/
def getUserRole (s : Store) (userId orgId : String) : Option String :=
  match s.organizationMembers.find? (fun m =>
      m.userId == userId && m.organizationId == orgId && m.isActive) with
  | some m => if m.role == "" then none else some m.role
  | none => none

/-- `DatabaseStorage.getOrganization`: select the organization row by id. -/
def getOrganization (s : Store) (id : String) : Option Organization :=
  s.organizations.find? (fun o => o.id == id)

/-- `DatabaseStorage.getUserOrganizations`: inner join of `organizations` with
the user's active `organization_members` rows (modelled as the organizations
having at least one matching active membership row). -/
def getUserOrganizations (s : Store) (userId : String) : List Organization :=
  s.organizations.filter (fun o =>
    s.organizationMembers.any (fun m =>
      m.organizationId == o.id && m.userId == userId && m.isActive))

/-- Insertion step for the `ORDER BY created_at DESC` of `getCustomers`. -/
def insertByCreatedAtDesc (c : Customer) : List Customer → List Customer
  | [] => [c]
  | x :: xs =>
    if c.createdAt ≤ x.createdAt then x :: insertByCreatedAtDesc c xs
    else c :: x :: xs

/-- Sort customers by `createdAt` descending (insertion sort). -/
def sortByCreatedAtDesc : List Customer → List Customer
  | [] => []
  | x :: xs => insertByCreatedAtDesc x (sortByCreatedAtDesc xs)

/-- `DatabaseStorage.getCustomers` (storage.ts lines 233-242): rows of the
organization with `isActive = true`, ordered by `createdAt` descending. -/
def getCustomers (s : Store) (orgId : String) : List Customer :=
  sortByCreatedAtDesc
    (s.customers.filter (fun c => c.organizationId == orgId && c.isActive))

/-- `DatabaseStorage.getCustomer` (storage.ts lines 244-250): select by id,
with no `isActive` filter. -/
def getCustomer (s : Store) (id : String) : Option Customer :=
  s.customers.find? (fun c => c.id == id)

/-- Client payload of `insertCustomerSchema` (the fields the handlers read). -/
structure InsertCustomer where
  organizationId : String
  name : String
deriving Repr, DecidableEq

/-- `DatabaseStorage.createCustomer`: insert a row; the database supplies the
fresh id, `isActive = true` default and the timestamps, passed here explicitly. -/
def createCustomer (s : Store) (data : InsertCustomer) (newId : String)
    (now : Nat) : Store × Customer :=
  let c : Customer :=
    { id := newId, organizationId := data.organizationId, name := data.name,
      isActive := true, createdAt := now, updatedAt := now }
  ({ s with customers := s.customers ++ [c] }, c)

/-- Client payload of `insertCustomerSchema.partial()`: every field optional. -/
structure CustomerUpdate where
  organizationId : Option String
  name : Option String
  isActive : Option Bool
deriving Repr, DecidableEq

/-- The `set` clause of `DatabaseStorage.updateCustomer`: spread the partial
payload over the row and stamp `updatedAt`. -/
def applyCustomerUpdate (u : CustomerUpdate) (now : Nat) (c : Customer) : Customer :=
  { c with
    organizationId := u.organizationId.getD c.organizationId
    name := u.name.getD c.name
    isActive := u.isActive.getD c.isActive
    updatedAt := now }

/-- `DatabaseStorage.updateCustomer` (storage.ts lines 260-267): update the rows
matching the id and return the first updated row (`undefined` when none). -/
def updateCustomer (s : Store) (id : String) (u : CustomerUpdate)
    (now : Nat) : Store × Option Customer :=
  let updated := s.customers.map
    (fun c => if c.id == id then applyCustomerUpdate u now c else c)
  ({ s with customers := updated }, updated.find? (fun c => c.id == id))

/-- `DatabaseStorage.deleteCustomer` (storage.ts lines 269-274): an UPDATE, not
a DELETE — set `isActive := false` and stamp `updatedAt`, keeping the row. -/
def deleteCustomer (s : Store) (id : String) (now : Nat) : Store :=
  { s with customers := s.customers.map (fun c =>
      if c.id == id then { c with isActive := false, updatedAt := now } else c) }

/-- Client payload of `insertSpeciesSchema` (fields the handler forwards). -/
structure InsertSpecies where
  name : String
  category : String
deriving Repr, DecidableEq

/-- `DatabaseStorage.createSpecies`: insert a species row (`isActive` defaults
to true in the schema). -/
def createSpecies (s : Store) (data : InsertSpecies) (newId : String) :
    Store × Species :=
  let sp : Species :=
    { id := newId, name := data.name, category := data.category, isActive := true }
  ({ s with species := s.species ++ [sp] }, sp)

/-- Client payload of `insertProcessingRecordSchema`. -/
structure InsertProcessingRecord where
  organizationId : String
  processingDate : String
deriving Repr, DecidableEq

/-- `DatabaseStorage.createProcessingRecord`: insert a row. -/
def createProcessingRecord (s : Store) (data : InsertProcessingRecord)
    (newId : String) : Store × ProcessingRecord :=
  let r : ProcessingRecord :=
    { id := newId, organizationId := data.organizationId,
      processingDate := data.processingDate }
  ({ s with processingRecords := s.processingRecords ++ [r] }, r)

/-- Client payload of `insertInventoryItemSchema`. -/
structure InsertInventoryItem where
  organizationId : String
  name : String
deriving Repr, DecidableEq

/-- `DatabaseStorage.createInventoryItem`: insert a row. -/
def createInventoryItem (s : Store) (data : InsertInventoryItem)
    (newId : String) : Store × InventoryItem :=
  let it : InventoryItem :=
    { id := newId, organizationId := data.organizationId, name := data.name,
      isActive := true }
  ({ s with inventoryItems := s.inventoryItems ++ [it] }, it)

/-- Client payload of `insertInvoiceSchema`. -/
structure InsertInvoice where
  organizationId : String
  total : String
deriving Repr, DecidableEq

/-- `DatabaseStorage.createInvoice`: insert a row. -/
def createInvoice (s : Store) (data : InsertInvoice) (newId : String) :
    Store × Invoice :=
  let inv : Invoice :=
    { id := newId, organizationId := data.organizationId, total := data.total }
  ({ s with invoices := s.invoices ++ [inv] }, inv)

/-- Client payload of `insertCutInstructionSchema`. -/
structure InsertCutInstruction where
  organizationId : String
  instructions : String
deriving Repr, DecidableEq

/-- `DatabaseStorage.createCutInstruction`: insert a row. -/
def createCutInstruction (s : Store) (data : InsertCutInstruction)
    (newId : String) : Store × CutInstruction :=
  let ci : CutInstruction :=
    { id := newId, organizationId := data.organizationId,
      instructions := data.instructions }
  ({ s with cutInstructions := s.cutInstructions ++ [ci] }, ci)

/-- The integer-valued dashboard aggregates (`revenue` and `averageYield` are
floating-point in the source and carry no claim; they are elided). -/
structure DashboardMetrics where
  totalAnimals : Nat
  activeCustomers : Nat
deriving Repr, DecidableEq

/-- `DatabaseStorage.getDashboardMetrics`: per-organization COUNT aggregates. -/
def getDashboardMetrics (s : Store) (orgId : String) : DashboardMetrics :=
  { totalAnimals :=
      (s.processingRecords.filter (fun r => r.organizationId == orgId)).length
    activeCustomers :=
      (s.customers.filter (fun c => c.organizationId == orgId && c.isActive)).length }

/-- JSON body of a handler response. -/
inductive ApiBody where
  | msg (message : String)
  | customerList (cs : List Customer)
  | customerData (c : Customer)
  | customerOpt (c : Option Customer)
  | organizationData (o : Organization)
  | speciesData (sp : Species)
  | processingRecordData (r : ProcessingRecord)
  | inventoryItemData (it : InventoryItem)
  | invoiceData (inv : Invoice)
  | cutInstructionData (ci : CutInstruction)
  | metricsData (m : DashboardMetrics)
deriving Repr, DecidableEq

/-- An HTTP response: status code and JSON body. -/
structure Response where
  status : Nat
  body : ApiBody
deriving Repr, DecidableEq

/-- The write-class allowed-role array literal the route handlers test with
`includes`: `['owner', 'admin', 'editor']`. -/
def writeRoles : List String := ["owner", "admin", "editor"]

/-- `GET /api/organizations/:id` (part_000 lines 83-103): role gate, then fetch. -/
def getOrganizationHandler (s : Store) (userId orgId : String) : Response :=
  match getUserRole s userId orgId with
  | none => { status := 403, body := .msg "Access denied" }
  | some _ =>
    match getOrganization s orgId with
    | none => { status := 404, body := .msg "Organization not found" }
    | some org => { status := 200, body := .organizationData org }

/-- `GET /api/dashboard/:orgId` (part_000 lines 106-122), infallible store. -/
def dashboardHandler (s : Store) (userId orgId : String) : Response :=
  match getUserRole s userId orgId with
  | none => { status := 403, body := .msg "Access denied" }
  | some _ => { status := 200, body := .metricsData (getDashboardMetrics s orgId) }

/-- `GET /api/customers/:orgId` (part_000 lines 165-181). -/
def getCustomersHandler (s : Store) (userId orgId : String) : Response :=
  match getUserRole s userId orgId with
  | none => { status := 403, body := .msg "Access denied" }
  | some _ => { status := 200, body := .customerList (getCustomers s orgId) }

/-- `POST /api/customers` (part_000 lines 183-199): the role in the
client-supplied `organizationId` must pass the write-role `includes` test
before `createCustomer` runs. -/
def createCustomerHandler (s : Store) (userId : String) (data : InsertCustomer)
    (newId : String) (now : Nat) : Store × Response :=
  match getUserRole s userId data.organizationId with
  | none => (s, { status := 403, body := .msg "Access denied" })
  | some role =>
    if writeRoles.contains role then
      let created := createCustomer s data newId now
      (created.1, { status := 200, body := .customerData created.2 })
    else
      (s, { status := 403, body := .msg "Access denied" })

/-- `PUT /api/customers/:id` (part_000 lines 201-223): fetch the customer
first (404 when absent), then authorize against the stored
`existingCustomer.organizationId`, then update. -/
def updateCustomerHandler (s : Store) (userId customerId : String)
    (data : CustomerUpdate) (now : Nat) : Store × Response :=
  match getCustomer s customerId with
  | none => (s, { status := 404, body := .msg "Customer not found" })
  | some existing =>
    match getUserRole s userId existing.organizationId with
    | none => (s, { status := 403, body := .msg "Access denied" })
    | some role =>
      if writeRoles.contains role then
        let updated := updateCustomer s customerId data now
        (updated.1, { status := 200, body := .customerOpt updated.2 })
      else
        (s, { status := 403, body := .msg "Access denied" })

/-- `DELETE /api/customers/:id` (part_000 lines 225-246): fetch first
(404 when absent), authorize against the stored organizationId, soft delete. -/
def deleteCustomerHandler (s : Store) (userId customerId : String)
    (now : Nat) : Store × Response :=
  match getCustomer s customerId with
  | none => (s, { status := 404, body := .msg "Customer not found" })
  | some existing =>
    match getUserRole s userId existing.organizationId with
    | none => (s, { status := 403, body := .msg "Access denied" })
    | some role =>
      if writeRoles.contains role then
        (deleteCustomer s customerId now,
         { status := 200, body := .msg "Customer deleted successfully" })
      else
        (s, { status := 403, body := .msg "Access denied" })

/-- `POST /api/processing-records` (part_000 lines 267-283). -/
def createProcessingRecordHandler (s : Store) (userId : String)
    (data : InsertProcessingRecord) (newId : String) : Store × Response :=
  match getUserRole s userId data.organizationId with
  | none => (s, { status := 403, body := .msg "Access denied" })
  | some role =>
    if writeRoles.contains role then
      let created := createProcessingRecord s data newId
      (created.1, { status := 200, body := .processingRecordData created.2 })
    else
      (s, { status := 403, body := .msg "Access denied" })

/-- `POST /api/inventory` (part_000 lines 304-320). -/
def createInventoryItemHandler (s : Store) (userId : String)
    (data : InsertInventoryItem) (newId : String) : Store × Response :=
  match getUserRole s userId data.organizationId with
  | none => (s, { status := 403, body := .msg "Access denied" })
  | some role =>
    if writeRoles.contains role then
      let created := createInventoryItem s data newId
      (created.1, { status := 200, body := .inventoryItemData created.2 })
    else
      (s, { status := 403, body := .msg "Access denied" })

/-- `POST /api/invoices` (part_000 lines 341-357). -/
def createInvoiceHandler (s : Store) (userId : String) (data : InsertInvoice)
    (newId : String) : Store × Response :=
  match getUserRole s userId data.organizationId with
  | none => (s, { status := 403, body := .msg "Access denied" })
  | some role =>
    if writeRoles.contains role then
      let created := createInvoice s data newId
      (created.1, { status := 200, body := .invoiceData created.2 })
    else
      (s, { status := 403, body := .msg "Access denied" })

/-- `POST /api/cut-instructions` (part_000 lines 378-394). -/
def createCutInstructionHandler (s : Store) (userId : String)
    (data : InsertCutInstruction) (newId : String) : Store × Response :=
  match getUserRole s userId data.organizationId with
  | none => (s, { status := 403, body := .msg "Access denied" })
  | some role =>
    if writeRoles.contains role then
      let created := createCutInstruction s data newId
      (created.1, { status := 200, body := .cutInstructionData created.2 })
    else
      (s, { status := 403, body := .msg "Access denied" })

/-- `POST /api/species` (part_000 lines 136-162): allowed when the user has an
owner or admin role in at least one of their organizations; species are global,
not organization-scoped. -/
def createSpeciesHandler (s : Store) (userId : String) (data : InsertSpecies)
    (newId : String) : Store × Response :=
  let userOrganizations := getUserOrganizations s userId
  let hasAdminRole := userOrganizations.map (fun org =>
    getUserRole s userId org.id == some "owner" ||
    getUserRole s userId org.id == some "admin")
  if userOrganizations.length == 0 || !(hasAdminRole.any (fun b => b)) then
    (s, { status := 403,
          body := .msg "Access denied. Only organization owners and admins can create species." })
  else
    let created := createSpecies s data newId
    (created.1, { status := 200, body := .speciesData created.2 })

/-- Failure of the tenant store during a lookup (store unreachable, query error). -/
inductive StoreError where
  | unavailable
deriving Repr, DecidableEq

/-- Fallible view of the store operations the dashboard handler performs:
each call either returns a value or raises a `StoreError`. -/
structure FallibleStore where
  userRole : String → String → Except StoreError (Option String)
  dashboardMetrics : String → Except StoreError DashboardMetrics

/-- `GET /api/dashboard/:orgId` over a fallible store, instrumented with the
list of storage calls actually performed: the `try` body runs
`storage.getUserRole`, then — only on a non-null role — `getDashboardMetrics`;
the `catch` branch maps any raised error to HTTP 500. -/
def dashboardHandlerFallible (fs : FallibleStore) (userId orgId : String) :
    Response × List String :=
  match fs.userRole userId orgId with
  | .error _ =>
    ({ status := 500, body := .msg "Failed to fetch dashboard metrics" },
     ["getUserRole"])
  | .ok none =>
    ({ status := 403, body := .msg "Access denied" }, ["getUserRole"])
  | .ok (some _) =>
    match fs.dashboardMetrics orgId with
    | .error _ =>
      ({ status := 500, body := .msg "Failed to fetch dashboard metrics" },
       ["getUserRole", "getDashboardMetrics"])
    | .ok m =>
      ({ status := 200, body := .metricsData m },
       ["getUserRole", "getDashboardMetrics"])

/-- The fallible store induced by an infallible `Store` (no errors raised). -/
def storeOracle (s : Store) : FallibleStore :=
  { userRole := fun u o => .ok (getUserRole s u o)
    dashboardMetrics := fun o => .ok (getDashboardMetrics s o) }

/-- Request fields `validateOrganizationAccess` reads. -/
structure MiddlewareRequest where
  userId : Option String
  paramsOrgId : Option String
  bodyOrganizationId : Option String
deriving Repr, DecidableEq

/-- Outcome of an Express middleware: respond immediately, or call `next()`. -/
inductive MiddlewareResult where
  | respond (r : Response)
  | next
deriving Repr, DecidableEq

/-- JavaScript `a || b` on string-or-absent values: an absent or empty-string
left operand falls through to the right operand. -/
def jsOrString (a b : Option String) : Option String :=
  match a with
  | some v => if v == "" then b else some v
  | none => b

/-- `validateOrganizationAccess` (security.ts lines 154-176): reject a missing
or empty principal with HTTP 401, a missing or empty organization id
(`req.params.orgId || req.body.organizationId`) with HTTP 400, and otherwise
pass through without consulting the store (the body is a TODO in the source).
This middleware is exported but mounted on no route in `registerRoutes`. -/
def validateOrganizationAccess (req : MiddlewareRequest) : MiddlewareResult :=
  let orgId := jsOrString req.paramsOrgId req.bodyOrganizationId
  match req.userId with
  | none => .respond { status := 401, body := .msg "Authentication required" }
  | some uid =>
    if uid == "" then
      .respond { status := 401, body := .msg "Authentication required" }
    else
      match orgId with
      | none => .respond { status := 400, body := .msg "Organization ID required" }
      | some oid =>
        if oid == "" then
          .respond { status := 400, body := .msg "Organization ID required" }
        else
          .next

/-- The organization-scoped denial response shared by every route handler. -/
def accessDenied : Response := { status := 403, body := .msg "Access denied" }

/-- The denial response of the species-creation handler. -/
def speciesDenied : Response :=
  { status := 403,
    body := .msg "Access denied. Only organization owners and admins can create species." }

/-- The resolved role of the principal in the organization passes the
write-class `includes` test. -/
def hasWriteRole (s : Store) (userId orgId : String) : Bool :=
  match getUserRole s userId orgId with
  | some r => writeRoles.contains r
  | none => false

/-- The store with every `organization_members` row of the given
(principal, organization) pair removed, used to state that inactive rows are
unobservable. -/
def dropPairRows (s : Store) (userId orgId : String) : Store :=
  { s with organizationMembers :=
      s.organizationMembers.filter (fun m =>
        !(m.userId == userId && m.organizationId == orgId)) }

/-- Concrete store for witnesses: alice is an active owner of org1 and holds a
deactivated admin membership in org2; bob is an active editor of org2; carol an
active viewer of org1; mallory has no membership row at all. -/
def sampleStore : Store :=
  { organizations := [{ id := "org1", name := "Org One" },
                      { id := "org2", name := "Org Two" }]
    organizationMembers :=
      [{ organizationId := "org1", userId := "alice", role := "owner", isActive := true },
       { organizationId := "org2", userId := "alice", role := "admin", isActive := false },
       { organizationId := "org2", userId := "bob", role := "editor", isActive := true },
       { organizationId := "org1", userId := "carol", role := "viewer", isActive := true }]
    customers :=
      [{ id := "cust1", organizationId := "org1", name := "Acme",
         isActive := true, createdAt := 5, updatedAt := 5 },
       { id := "cust2", organizationId := "org2", name := "Globex",
         isActive := true, createdAt := 7, updatedAt := 7 }]
    species := []
    processingRecords := []
    inventoryItems := []
    invoices := []
    cutInstructions := [] }

/-- A fallible store whose membership lookup always fails. -/
def errStore : FallibleStore :=
  { userRole := fun _ _ => .error .unavailable
    dashboardMetrics := fun o => .ok (getDashboardMetrics sampleStore o) }

/-! ## Helper lemmas -/

theorem find?_filter_congr {α : Type} (p q : α → Bool) :
    ∀ l : List α, (∀ x ∈ l, q x = false → p x = false) →
      (l.filter q).find? p = l.find? p := by
  intro l
  induction l with
  | nil => intro _; rfl
  | cons x xs ih =>
    intro h
    have hrest := ih (fun y hy => h y (List.mem_cons_of_mem x hy))
    by_cases hq : q x = true
    · by_cases hp : p x = true
      · simp [List.filter_cons, List.find?_cons, hq, hp]
      · have hp0 : p x = false := by simpa using hp
        simp [List.filter_cons, List.find?_cons, hq, hp0, hrest]
    · have hq0 : q x = false := by simpa using hq
      have hp0 : p x = false := h x (List.mem_cons_self x xs) hq0
      simp [List.filter_cons, List.find?_cons, hq0, hp0, hrest]

theorem any_filter_congr {α : Type} (p q : α → Bool) :
    ∀ l : List α, (∀ x ∈ l, q x = false → p x = false) →
      (l.filter q).any p = l.any p := by
  intro l
  induction l with
  | nil => intro _; rfl
  | cons x xs ih =>
    intro h
    have hrest := ih (fun y hy => h y (List.mem_cons_of_mem x hy))
    by_cases hq : q x = true
    · simp [List.filter_cons, List.any_cons, hq, hrest]
    · have hq0 : q x = false := by simpa using hq
      have hp0 : p x = false := h x (List.mem_cons_self x xs) hq0
      simp [List.filter_cons, List.any_cons, hq0, hp0, hrest]

theorem getUserRole_eq_none_of_no_active (s : Store) (u o : String)
    (h : ∀ m ∈ s.organizationMembers, m.userId = u → m.organizationId = o →
      m.isActive = false) :
    getUserRole s u o = none := by
  unfold getUserRole
  have hfind : s.organizationMembers.find?
      (fun m => m.userId == u && m.organizationId == o && m.isActive) = none := by
    rw [List.find?_eq_none]
    intro m hm
    intro hcontra
    simp only [Bool.and_eq_true, beq_iff_eq] at hcontra
    obtain ⟨⟨hu, ho⟩, ha⟩ := hcontra
    rw [h m hm hu ho] at ha
    exact Bool.false_ne_true ha
  rw [hfind]

theorem getUserRole_eq_some_elim (s : Store) (u o r : String)
    (h : getUserRole s u o = some r) :
    ∃ m ∈ s.organizationMembers,
      m.userId = u ∧ m.organizationId = o ∧ m.isActive = true ∧ m.role = r := by
  unfold getUserRole at h
  split at h
  · next m hfind =>
    have hmem := List.mem_of_find?_eq_some hfind
    have hpred := List.find?_some hfind
    simp only [Bool.and_eq_true, beq_iff_eq] at hpred
    split at h
    · exact absurd h (by simp)
    · exact ⟨m, hmem, hpred.1.1, hpred.1.2, hpred.2, Option.some.inj h⟩
  · exact absurd h (by simp)

theorem mem_insertByCreatedAtDesc (c x : Customer) :
    ∀ l : List Customer, x ∈ insertByCreatedAtDesc c l ↔ x = c ∨ x ∈ l := by
  intro l
  induction l with
  | nil => simp [insertByCreatedAtDesc]
  | cons y ys ih =>
    unfold insertByCreatedAtDesc
    by_cases hle : c.createdAt ≤ y.createdAt
    · rw [if_pos hle]
      simp only [List.mem_cons, ih]
      tauto
    · rw [if_neg hle]
      simp [List.mem_cons]

theorem mem_sortByCreatedAtDesc (x : Customer) :
    ∀ l : List Customer, x ∈ sortByCreatedAtDesc l ↔ x ∈ l := by
  intro l
  induction l with
  | nil => simp [sortByCreatedAtDesc]
  | cons y ys ih =>
    unfold sortByCreatedAtDesc
    rw [mem_insertByCreatedAtDesc, ih, List.mem_cons]

theorem hasWriteRole_false_cases (s : Store) (u o : String)
    (h : hasWriteRole s u o = false) :
    getUserRole s u o = none ∨
      ∃ r, getUserRole s u o = some r ∧ writeRoles.contains r = false := by
  unfold hasWriteRole at h
  cases hg : getUserRole s u o with
  | none => exact Or.inl rfl
  | some r => rw [hg] at h; exact Or.inr ⟨r, rfl, h⟩

theorem hasWriteRole_true_cases (s : Store) (u o : String)
    (h : hasWriteRole s u o = true) :
    ∃ r, getUserRole s u o = some r ∧ writeRoles.contains r = true := by
  unfold hasWriteRole at h
  cases hg : getUserRole s u o with
  | none => rw [hg] at h; exact absurd h (by simp)
  | some r => rw [hg] at h; exact ⟨r, rfl, h⟩

theorem getCustomersHandler_denied (s : Store) (u o : String)
    (h : getUserRole s u o = none) : getCustomersHandler s u o = accessDenied := by
  simp [getCustomersHandler, h, accessDenied]

theorem dashboardHandler_denied (s : Store) (u o : String)
    (h : getUserRole s u o = none) : dashboardHandler s u o = accessDenied := by
  simp [dashboardHandler, h, accessDenied]

theorem getOrganizationHandler_denied (s : Store) (u o : String)
    (h : getUserRole s u o = none) : getOrganizationHandler s u o = accessDenied := by
  simp [getOrganizationHandler, h, accessDenied]

theorem createCustomerHandler_denied (s : Store) (u : String)
    (data : InsertCustomer) (nid : String) (now : Nat)
    (h : hasWriteRole s u data.organizationId = false) :
    createCustomerHandler s u data nid now = (s, accessDenied) := by
  rcases hasWriteRole_false_cases s u data.organizationId h with hg | ⟨r, hg, hr⟩
  · simp [createCustomerHandler, hg, accessDenied]
  · have hr2 : r ∉ writeRoles := by simpa using hr
    simp [createCustomerHandler, hg, hr2, accessDenied]

theorem createCustomerHandler_allowed (s : Store) (u : String)
    (data : InsertCustomer) (nid : String) (now : Nat) (r : String)
    (hg : getUserRole s u data.organizationId = some r)
    (hr : writeRoles.contains r = true) :
    createCustomerHandler s u data nid now =
      ({ s with customers := s.customers ++
          [{ id := nid, organizationId := data.organizationId, name := data.name,
             isActive := true, createdAt := now, updatedAt := now }] },
       { status := 200,
         body := .customerData
           { id := nid, organizationId := data.organizationId, name := data.name,
             isActive := true, createdAt := now, updatedAt := now } }) := by
  have hr2 : r ∈ writeRoles := by simpa using hr
  simp [createCustomerHandler, hg, hr2, createCustomer]

theorem createProcessingRecordHandler_denied (s : Store) (u : String)
    (data : InsertProcessingRecord) (nid : String)
    (h : hasWriteRole s u data.organizationId = false) :
    createProcessingRecordHandler s u data nid = (s, accessDenied) := by
  rcases hasWriteRole_false_cases s u data.organizationId h with hg | ⟨r, hg, hr⟩
  · simp [createProcessingRecordHandler, hg, accessDenied]
  · have hr2 : r ∉ writeRoles := by simpa using hr
    simp [createProcessingRecordHandler, hg, hr2, accessDenied]

theorem createProcessingRecordHandler_allowed (s : Store) (u : String)
    (data : InsertProcessingRecord) (nid : String) (r : String)
    (hg : getUserRole s u data.organizationId = some r)
    (hr : writeRoles.contains r = true) :
    createProcessingRecordHandler s u data nid =
      ({ s with processingRecords := s.processingRecords ++
          [{ id := nid, organizationId := data.organizationId,
             processingDate := data.processingDate }] },
       { status := 200,
         body := .processingRecordData
           { id := nid, organizationId := data.organizationId,
             processingDate := data.processingDate } }) := by
  have hr2 : r ∈ writeRoles := by simpa using hr
  simp [createProcessingRecordHandler, hg, hr2, createProcessingRecord]

theorem createInventoryItemHandler_denied (s : Store) (u : String)
    (data : InsertInventoryItem) (nid : String)
    (h : hasWriteRole s u data.organizationId = false) :
    createInventoryItemHandler s u data nid = (s, accessDenied) := by
  rcases hasWriteRole_false_cases s u data.organizationId h with hg | ⟨r, hg, hr⟩
  · simp [createInventoryItemHandler, hg, accessDenied]
  · have hr2 : r ∉ writeRoles := by simpa using hr
    simp [createInventoryItemHandler, hg, hr2, accessDenied]

theorem createInventoryItemHandler_allowed (s : Store) (u : String)
    (data : InsertInventoryItem) (nid : String) (r : String)
    (hg : getUserRole s u data.organizationId = some r)
    (hr : writeRoles.contains r = true) :
    createInventoryItemHandler s u data nid =
      ({ s with inventoryItems := s.inventoryItems ++
          [{ id := nid, organizationId := data.organizationId, name := data.name,
             isActive := true }] },
       { status := 200,
         body := .inventoryItemData
           { id := nid, organizationId := data.organizationId, name := data.name,
             isActive := true } }) := by
  have hr2 : r ∈ writeRoles := by simpa using hr
  simp [createInventoryItemHandler, hg, hr2, createInventoryItem]

theorem createInvoiceHandler_denied (s : Store) (u : String)
    (data : InsertInvoice) (nid : String)
    (h : hasWriteRole s u data.organizationId = false) :
    createInvoiceHandler s u data nid = (s, accessDenied) := by
  rcases hasWriteRole_false_cases s u data.organizationId h with hg | ⟨r, hg, hr⟩
  · simp [createInvoiceHandler, hg, accessDenied]
  · have hr2 : r ∉ writeRoles := by simpa using hr
    simp [createInvoiceHandler, hg, hr2, accessDenied]

theorem createInvoiceHandler_allowed (s : Store) (u : String)
    (data : InsertInvoice) (nid : String) (r : String)
    (hg : getUserRole s u data.organizationId = some r)
    (hr : writeRoles.contains r = true) :
    createInvoiceHandler s u data nid =
      ({ s with invoices := s.invoices ++
          [{ id := nid, organizationId := data.organizationId, total := data.total }] },
       { status := 200,
         body := .invoiceData
           { id := nid, organizationId := data.organizationId,
             total := data.total } }) := by
  have hr2 : r ∈ writeRoles := by simpa using hr
  simp [createInvoiceHandler, hg, hr2, createInvoice]

theorem createCutInstructionHandler_denied (s : Store) (u : String)
    (data : InsertCutInstruction) (nid : String)
    (h : hasWriteRole s u data.organizationId = false) :
    createCutInstructionHandler s u data nid = (s, accessDenied) := by
  rcases hasWriteRole_false_cases s u data.organizationId h with hg | ⟨r, hg, hr⟩
  · simp [createCutInstructionHandler, hg, accessDenied]
  · have hr2 : r ∉ writeRoles := by simpa using hr
    simp [createCutInstructionHandler, hg, hr2, accessDenied]

theorem createCutInstructionHandler_allowed (s : Store) (u : String)
    (data : InsertCutInstruction) (nid : String) (r : String)
    (hg : getUserRole s u data.organizationId = some r)
    (hr : writeRoles.contains r = true) :
    createCutInstructionHandler s u data nid =
      ({ s with cutInstructions := s.cutInstructions ++
          [{ id := nid, organizationId := data.organizationId,
             instructions := data.instructions }] },
       { status := 200,
         body := .cutInstructionData
           { id := nid, organizationId := data.organizationId,
             instructions := data.instructions } }) := by
  have hr2 : r ∈ writeRoles := by simpa using hr
  simp [createCutInstructionHandler, hg, hr2, createCutInstruction]

theorem updateCustomerHandler_denied (s : Store) (u cid : String) (c : Customer)
    (data : CustomerUpdate) (now : Nat) (hc : getCustomer s cid = some c)
    (h : hasWriteRole s u c.organizationId = false) :
    updateCustomerHandler s u cid data now = (s, accessDenied) := by
  rcases hasWriteRole_false_cases s u c.organizationId h with hg | ⟨r, hg, hr⟩
  · simp [updateCustomerHandler, hc, hg, accessDenied]
  · have hr2 : r ∉ writeRoles := by simpa using hr
    simp [updateCustomerHandler, hc, hg, hr2, accessDenied]

theorem updateCustomerHandler_allowed (s : Store) (u cid : String) (c : Customer)
    (data : CustomerUpdate) (now : Nat) (r : String)
    (hc : getCustomer s cid = some c)
    (hg : getUserRole s u c.organizationId = some r)
    (hr : writeRoles.contains r = true) :
    (updateCustomerHandler s u cid data now).2.status = 200 := by
  have hr2 : r ∈ writeRoles := by simpa using hr
  simp [updateCustomerHandler, hc, hg, hr2]

theorem deleteCustomerHandler_denied (s : Store) (u cid : String) (c : Customer)
    (now : Nat) (hc : getCustomer s cid = some c)
    (h : hasWriteRole s u c.organizationId = false) :
    deleteCustomerHandler s u cid now = (s, accessDenied) := by
  rcases hasWriteRole_false_cases s u c.organizationId h with hg | ⟨r, hg, hr⟩
  · simp [deleteCustomerHandler, hc, hg, accessDenied]
  · have hr2 : r ∉ writeRoles := by simpa using hr
    simp [deleteCustomerHandler, hc, hg, hr2, accessDenied]

theorem deleteCustomerHandler_allowed (s : Store) (u cid : String) (c : Customer)
    (now : Nat) (r : String) (hc : getCustomer s cid = some c)
    (hg : getUserRole s u c.organizationId = some r)
    (hr : writeRoles.contains r = true) :
    deleteCustomerHandler s u cid now =
      (deleteCustomer s cid now,
       { status := 200, body := .msg "Customer deleted successfully" }) := by
  have hr2 : r ∈ writeRoles := by simpa using hr
  simp [deleteCustomerHandler, hc, hg, hr2]

theorem createSpeciesHandler_denied (s : Store) (u : String)
    (data : InsertSpecies) (nid : String)
    (h : ∀ m ∈ s.organizationMembers, m.userId = u → m.isActive = true →
      m.role ≠ "owner" ∧ m.role ≠ "admin") :
    createSpeciesHandler s u data nid = (s, speciesDenied) := by
  have hroles : ∀ o : String, ∀ r : String, getUserRole s u o = some r →
      r ≠ "owner" ∧ r ≠ "admin" := by
    intro o r hg
    obtain ⟨m, hm, hmu, _, hma, hmr⟩ := getUserRole_eq_some_elim s u o r hg
    rw [← hmr]
    exact h m hm hmu hma
  have hany : ((getUserOrganizations s u).map (fun org =>
      getUserRole s u org.id == some "owner" ||
      getUserRole s u org.id == some "admin")).any (fun b => b) = false := by
    cases hx : ((getUserOrganizations s u).map (fun org =>
        getUserRole s u org.id == some "owner" ||
        getUserRole s u org.id == some "admin")).any (fun b => b) with
    | false => rfl
    | true =>
      exfalso
      rw [List.any_eq_true] at hx
      obtain ⟨b, hb, hbt⟩ := hx
      obtain ⟨org, _, hborg⟩ := List.mem_map.mp hb
      have hbtrue : b = true := by simpa using hbt
      rw [hbtrue] at hborg
      have hcases : getUserRole s u org.id = some "owner" ∨
          getUserRole s u org.id = some "admin" := by
        have := hborg
        simp only [Bool.or_eq_true, beq_iff_eq] at this
        exact this
      rcases hcases with howner | hadmin
      · exact (hroles org.id "owner" howner).1 rfl
      · exact (hroles org.id "admin" hadmin).2 rfl
  simp [createSpeciesHandler, hany, speciesDenied]

theorem find?_map_pres {α : Type} (f : α → α) (p : α → Bool)
    (hp : ∀ x, p (f x) = p x) :
    ∀ l : List α, (l.map f).find? p = (l.find? p).map f := by
  intro l
  induction l with
  | nil => rfl
  | cons x xs ih =>
    by_cases hx : p x = true
    · simp [List.find?, hp, hx]
    · have hx0 : p x = false := by simpa using hx
      simp [List.find?, hp, hx0, ih]

/-! ## Claim theorems -/

/-- C1: Tenant isolation — a principal with an active membership in
organization O1 but no active membership in O2 is denied on every
organization-scoped operation against O2 (reads and writes alike; the code has
no organization-scoped admin-write endpoint), regardless of the role held in
O1, because role resolution keys on the exact (principal, organization) pair. -/
theorem c1_tenant_isolation (s : Store) (P O1 O2 : String)
    (m1 : OrganizationMember) (_hm1 : m1 ∈ s.organizationMembers)
    (_hm1u : m1.userId = P) (_hm1o : m1.organizationId = O1)
    (_hm1a : m1.isActive = true)
    (h2 : ∀ m ∈ s.organizationMembers, m.userId = P → m.organizationId = O2 →
      m.isActive = false) :
    getUserRole s P O2 = none ∧
    getCustomersHandler s P O2 = accessDenied ∧
    dashboardHandler s P O2 = accessDenied ∧
    getOrganizationHandler s P O2 = accessDenied ∧
    (∀ (data : InsertCustomer) (nid : String) (now : Nat),
      data.organizationId = O2 →
      createCustomerHandler s P data nid now = (s, accessDenied)) ∧
    (∀ (data : InsertProcessingRecord) (nid : String), data.organizationId = O2 →
      createProcessingRecordHandler s P data nid = (s, accessDenied)) ∧
    (∀ (data : InsertInventoryItem) (nid : String), data.organizationId = O2 →
      createInventoryItemHandler s P data nid = (s, accessDenied)) ∧
    (∀ (data : InsertInvoice) (nid : String), data.organizationId = O2 →
      createInvoiceHandler s P data nid = (s, accessDenied)) ∧
    (∀ (data : InsertCutInstruction) (nid : String), data.organizationId = O2 →
      createCutInstructionHandler s P data nid = (s, accessDenied)) ∧
    (∀ (cid : String) (c : Customer) (data : CustomerUpdate) (now : Nat),
      getCustomer s cid = some c → c.organizationId = O2 →
      updateCustomerHandler s P cid data now = (s, accessDenied)) ∧
    (∀ (cid : String) (c : Customer) (now : Nat),
      getCustomer s cid = some c → c.organizationId = O2 →
      deleteCustomerHandler s P cid now = (s, accessDenied)) := by
  have hnone : getUserRole s P O2 = none :=
    getUserRole_eq_none_of_no_active s P O2 h2
  have hw : hasWriteRole s P O2 = false := by
    unfold hasWriteRole
    rw [hnone]
  refine ⟨hnone, getCustomersHandler_denied s P O2 hnone,
    dashboardHandler_denied s P O2 hnone,
    getOrganizationHandler_denied s P O2 hnone, ?_, ?_, ?_, ?_, ?_, ?_, ?_⟩
  · intro data nid now hdo
    exact createCustomerHandler_denied s P data nid now (by rw [hdo]; exact hw)
  · intro data nid hdo
    exact createProcessingRecordHandler_denied s P data nid (by rw [hdo]; exact hw)
  · intro data nid hdo
    exact createInventoryItemHandler_denied s P data nid (by rw [hdo]; exact hw)
  · intro data nid hdo
    exact createInvoiceHandler_denied s P data nid (by rw [hdo]; exact hw)
  · intro data nid hdo
    exact createCutInstructionHandler_denied s P data nid (by rw [hdo]; exact hw)
  · intro cid c data now hc hco
    exact updateCustomerHandler_denied s P cid c data now hc (by rw [hco]; exact hw)
  · intro cid c now hc hco
    exact deleteCustomerHandler_denied s P cid c now hc (by rw [hco]; exact hw)

/-- C1 witness: alice, an active owner of org1 whose only org2 membership row is
deactivated, is denied on org2-scoped reads and writes. -/
theorem c1_tenant_isolation_witness :
    getUserRole sampleStore "alice" "org2" = none ∧
    getCustomersHandler sampleStore "alice" "org2" = accessDenied ∧
    createCustomerHandler sampleStore "alice"
      { organizationId := "org2", name := "Evil" } "c9" 99 =
      (sampleStore, accessDenied) := by
  have h := c1_tenant_isolation sampleStore "alice" "org1" "org2"
    { organizationId := "org1", userId := "alice", role := "owner", isActive := true }
    (by decide) rfl rfl rfl (by decide)
  exact ⟨h.1, h.2.1, h.2.2.2.2.1 { organizationId := "org2", name := "Evil" }
    "c9" 99 rfl⟩

/-- C2: update and delete of an existing customer authorize against the
organizationId stored on the fetched customer row — the client payload is
universally quantified and never consulted — while creation checks the
client-supplied organizationId against the principal's membership and rejects
with no row written when no active membership exists there. -/
theorem c2_resource_owner_auth (s : Store) (u cid : String) (c : Customer)
    (hc : getCustomer s cid = some c) :
    (hasWriteRole s u c.organizationId = false →
      ∀ (data : CustomerUpdate) (now : Nat),
        updateCustomerHandler s u cid data now = (s, accessDenied)) ∧
    (hasWriteRole s u c.organizationId = true →
      ∀ (data : CustomerUpdate) (now : Nat),
        (updateCustomerHandler s u cid data now).2.status = 200) ∧
    (hasWriteRole s u c.organizationId = false →
      ∀ now : Nat, deleteCustomerHandler s u cid now = (s, accessDenied)) ∧
    (hasWriteRole s u c.organizationId = true →
      ∀ now : Nat, (deleteCustomerHandler s u cid now).2.status = 200) ∧
    (∀ (data : InsertCustomer) (nid : String) (now : Nat),
      (∀ m ∈ s.organizationMembers, m.userId = u →
        m.organizationId = data.organizationId → m.isActive = false) →
      createCustomerHandler s u data nid now = (s, accessDenied)) := by
  refine ⟨?_, ?_, ?_, ?_, ?_⟩
  · intro hw data now
    exact updateCustomerHandler_denied s u cid c data now hc hw
  · intro hw data now
    obtain ⟨r, hg, hr⟩ := hasWriteRole_true_cases s u c.organizationId hw
    exact updateCustomerHandler_allowed s u cid c data now r hc hg hr
  · intro hw now
    exact deleteCustomerHandler_denied s u cid c now hc hw
  · intro hw now
    obtain ⟨r, hg, hr⟩ := hasWriteRole_true_cases s u c.organizationId hw
    rw [deleteCustomerHandler_allowed s u cid c now r hc hg hr]
  · intro data nid now hno
    have hnone := getUserRole_eq_none_of_no_active s u data.organizationId hno
    exact createCustomerHandler_denied s u data nid now
      (by unfold hasWriteRole; rw [hnone])

/-- C2 witness: alice (active only in org1) cannot update cust2, which org2
owns; bob (editor of org2) updates cust2 even while the request body carries a
foreign organizationId, because the stored owner org decides. -/
theorem c2_resource_owner_auth_witness :
    updateCustomerHandler sampleStore "alice" "cust2"
      { organizationId := none, name := none, isActive := none } 11 =
      (sampleStore, accessDenied) ∧
    (updateCustomerHandler sampleStore "bob" "cust2"
      { organizationId := some "org1", name := none, isActive := none } 12).2.status
      = 200 := by
  have h1 := c2_resource_owner_auth sampleStore "alice" "cust2"
    { id := "cust2", organizationId := "org2", name := "Globex",
      isActive := true, createdAt := 7, updatedAt := 7 } (by decide)
  have h2 := c2_resource_owner_auth sampleStore "bob" "cust2"
    { id := "cust2", organizationId := "org2", name := "Globex",
      isActive := true, createdAt := 7, updatedAt := 7 } (by decide)
  exact ⟨h1.1 (by decide) { organizationId := none, name := none, isActive := none } 11,
    h2.2.1 (by decide)
      { organizationId := some "org1", name := none, isActive := none } 12⟩

/-- C3: every write-class mutation (create customer, processing record,
inventory item, invoice, cut instruction; customer update and delete) is
allowed exactly when the resolved role in the target organization is in
the owner/admin/editor list, and otherwise denied with HTTP 403 and body
message Access denied. -/
theorem c3_write_role_gate (s : Store) (u : String) :
    (∀ (data : InsertCustomer) (nid : String) (now : Nat),
      (hasWriteRole s u data.organizationId = false →
        createCustomerHandler s u data nid now = (s, accessDenied)) ∧
      (∀ r, getUserRole s u data.organizationId = some r → r ∈ writeRoles →
        (createCustomerHandler s u data nid now).2.status = 200 ∧
        ∃ row, (createCustomerHandler s u data nid now).1 =
            { s with customers := s.customers ++ [row] } ∧
          row.organizationId = data.organizationId)) ∧
    (∀ (data : InsertProcessingRecord) (nid : String),
      (hasWriteRole s u data.organizationId = false →
        createProcessingRecordHandler s u data nid = (s, accessDenied)) ∧
      (∀ r, getUserRole s u data.organizationId = some r → r ∈ writeRoles →
        (createProcessingRecordHandler s u data nid).2.status = 200 ∧
        ∃ row, (createProcessingRecordHandler s u data nid).1 =
            { s with processingRecords := s.processingRecords ++ [row] } ∧
          row.organizationId = data.organizationId)) ∧
    (∀ (data : InsertInventoryItem) (nid : String),
      (hasWriteRole s u data.organizationId = false →
        createInventoryItemHandler s u data nid = (s, accessDenied)) ∧
      (∀ r, getUserRole s u data.organizationId = some r → r ∈ writeRoles →
        (createInventoryItemHandler s u data nid).2.status = 200 ∧
        ∃ row, (createInventoryItemHandler s u data nid).1 =
            { s with inventoryItems := s.inventoryItems ++ [row] } ∧
          row.organizationId = data.organizationId)) ∧
    (∀ (data : InsertInvoice) (nid : String),
      (hasWriteRole s u data.organizationId = false →
        createInvoiceHandler s u data nid = (s, accessDenied)) ∧
      (∀ r, getUserRole s u data.organizationId = some r → r ∈ writeRoles →
        (createInvoiceHandler s u data nid).2.status = 200 ∧
        ∃ row, (createInvoiceHandler s u data nid).1 =
            { s with invoices := s.invoices ++ [row] } ∧
          row.organizationId = data.organizationId)) ∧
    (∀ (data : InsertCutInstruction) (nid : String),
      (hasWriteRole s u data.organizationId = false →
        createCutInstructionHandler s u data nid = (s, accessDenied)) ∧
      (∀ r, getUserRole s u data.organizationId = some r → r ∈ writeRoles →
        (createCutInstructionHandler s u data nid).2.status = 200 ∧
        ∃ row, (createCutInstructionHandler s u data nid).1 =
            { s with cutInstructions := s.cutInstructions ++ [row] } ∧
          row.organizationId = data.organizationId)) ∧
    (∀ (cid : String) (c : Customer) (data : CustomerUpdate) (now : Nat),
      getCustomer s cid = some c →
      (hasWriteRole s u c.organizationId = false →
        updateCustomerHandler s u cid data now = (s, accessDenied)) ∧
      (∀ r, getUserRole s u c.organizationId = some r → r ∈ writeRoles →
        (updateCustomerHandler s u cid data now).2.status = 200)) ∧
    (∀ (cid : String) (c : Customer) (now : Nat),
      getCustomer s cid = some c →
      (hasWriteRole s u c.organizationId = false →
        deleteCustomerHandler s u cid now = (s, accessDenied)) ∧
      (∀ r, getUserRole s u c.organizationId = some r → r ∈ writeRoles →
        (deleteCustomerHandler s u cid now).2.status = 200)) := by
  refine ⟨?_, ?_, ?_, ?_, ?_, ?_, ?_⟩
  · intro data nid now
    refine ⟨fun hw => createCustomerHandler_denied s u data nid now hw, ?_⟩
    intro r hg hr
    have hrc : writeRoles.contains r = true := by simpa using hr
    rw [createCustomerHandler_allowed s u data nid now r hg hrc]
    exact ⟨rfl, _, rfl, rfl⟩
  · intro data nid
    refine ⟨fun hw => createProcessingRecordHandler_denied s u data nid hw, ?_⟩
    intro r hg hr
    have hrc : writeRoles.contains r = true := by simpa using hr
    rw [createProcessingRecordHandler_allowed s u data nid r hg hrc]
    exact ⟨rfl, _, rfl, rfl⟩
  · intro data nid
    refine ⟨fun hw => createInventoryItemHandler_denied s u data nid hw, ?_⟩
    intro r hg hr
    have hrc : writeRoles.contains r = true := by simpa using hr
    rw [createInventoryItemHandler_allowed s u data nid r hg hrc]
    exact ⟨rfl, _, rfl, rfl⟩
  · intro data nid
    refine ⟨fun hw => createInvoiceHandler_denied s u data nid hw, ?_⟩
    intro r hg hr
    have hrc : writeRoles.contains r = true := by simpa using hr
    rw [createInvoiceHandler_allowed s u data nid r hg hrc]
    exact ⟨rfl, _, rfl, rfl⟩
  · intro data nid
    refine ⟨fun hw => createCutInstructionHandler_denied s u data nid hw, ?_⟩
    intro r hg hr
    have hrc : writeRoles.contains r = true := by simpa using hr
    rw [createCutInstructionHandler_allowed s u data nid r hg hrc]
    exact ⟨rfl, _, rfl, rfl⟩
  · intro cid c data now hc
    refine ⟨fun hw => updateCustomerHandler_denied s u cid c data now hc hw, ?_⟩
    intro r hg hr
    have hrc : writeRoles.contains r = true := by simpa using hr
    exact updateCustomerHandler_allowed s u cid c data now r hc hg hrc
  · intro cid c now hc
    refine ⟨fun hw => deleteCustomerHandler_denied s u cid c now hc hw, ?_⟩
    intro r hg hr
    have hrc : writeRoles.contains r = true := by simpa using hr
    rw [deleteCustomerHandler_allowed s u cid c now r hc hg hrc]

/-- C3 witness: carol, a viewer of org1, is denied customer creation there;
bob, an editor of org2, succeeds. -/
theorem c3_write_role_gate_witness :
    createCustomerHandler sampleStore "carol"
      { organizationId := "org1", name := "X" } "c5" 20 =
      (sampleStore, accessDenied) ∧
    (createCustomerHandler sampleStore "bob"
      { organizationId := "org2", name := "Y" } "c6" 21).2.status = 200 := by
  have hcarol := (c3_write_role_gate sampleStore "carol").1
    { organizationId := "org1", name := "X" } "c5" 20
  have hbob := (c3_write_role_gate sampleStore "bob").1
    { organizationId := "org2", name := "Y" } "c6" 21
  exact ⟨hcarol.1 (by decide), (hbob.2 "editor" (by decide) (by decide)).1⟩

/-- C4: when every membership row for a (principal, organization) pair is
inactive, resolveRole returns none, both resolveRole (for every pair) and the
organization join are unchanged by removing those rows entirely, and the
organization-scoped authorization decisions for that pair are all denials. -/
theorem c4_inactive_membership (s : Store) (u o : String)
    (h : ∀ m ∈ s.organizationMembers, m.userId = u → m.organizationId = o →
      m.isActive = false) :
    getUserRole s u o = none ∧
    (∀ u2 o2, getUserRole (dropPairRows s u o) u2 o2 = getUserRole s u2 o2) ∧
    (∀ u2, getUserOrganizations (dropPairRows s u o) u2 =
      getUserOrganizations s u2) ∧
    getCustomersHandler s u o = accessDenied ∧
    dashboardHandler s u o = accessDenied ∧
    getOrganizationHandler s u o = accessDenied ∧
    (∀ (data : InsertCustomer) (nid : String) (now : Nat),
      data.organizationId = o →
      createCustomerHandler s u data nid now = (s, accessDenied)) := by
  have hnone := getUserRole_eq_none_of_no_active s u o h
  have hw : hasWriteRole s u o = false := by
    unfold hasWriteRole
    rw [hnone]
  have hdropRole : ∀ u2 o2 : String,
      getUserRole (dropPairRows s u o) u2 o2 = getUserRole s u2 o2 := by
    intro u2 o2
    have hpf : ∀ m ∈ s.organizationMembers,
        (!(m.userId == u && m.organizationId == o)) = false →
        (m.userId == u2 && m.organizationId == o2 && m.isActive) = false := by
      intro m hm hq
      simp at hq
      have hin := h m hm hq.1 hq.2
      simp [hin]
    have hfind := find?_filter_congr
      (fun m => m.userId == u2 && m.organizationId == o2 && m.isActive)
      (fun m => !(m.userId == u && m.organizationId == o))
      s.organizationMembers hpf
    show (match ((s.organizationMembers.filter (fun m =>
        !(m.userId == u && m.organizationId == o))).find? (fun m =>
        m.userId == u2 && m.organizationId == o2 && m.isActive)) with
      | some m => if m.role == "" then none else some m.role
      | none => none) = getUserRole s u2 o2
    rw [hfind]
    rfl
  have hdropOrgs : ∀ u2 : String,
      getUserOrganizations (dropPairRows s u o) u2 = getUserOrganizations s u2 := by
    intro u2
    show s.organizations.filter (fun org =>
        (s.organizationMembers.filter (fun m =>
          !(m.userId == u && m.organizationId == o))).any (fun m =>
          m.organizationId == org.id && m.userId == u2 && m.isActive)) =
      getUserOrganizations s u2
    unfold getUserOrganizations
    apply List.filter_congr
    intro org _
    apply any_filter_congr
    intro m hm hq
    simp at hq
    have hin := h m hm hq.1 hq.2
    simp [hin]
  refine ⟨hnone, hdropRole, hdropOrgs,
    getCustomersHandler_denied s u o hnone,
    dashboardHandler_denied s u o hnone,
    getOrganizationHandler_denied s u o hnone, ?_⟩
  intro data nid now hdo
  exact createCustomerHandler_denied s u data nid now (by rw [hdo]; exact hw)

/-- C4 witness: alice's only org2 row is inactive; resolution behaves as if the
row were absent and the org2-scoped reads for alice are denied. -/
theorem c4_inactive_membership_witness :
    getUserRole (dropPairRows sampleStore "alice" "org2") "bob" "org2" =
      getUserRole sampleStore "bob" "org2" ∧
    getCustomersHandler sampleStore "alice" "org2" = accessDenied := by
  have h := c4_inactive_membership sampleStore "alice" "org2" (by decide)
  exact ⟨h.2.1 "bob" "org2", h.2.2.2.1⟩

/-- C5: if the membership lookup raises a store error, the dashboard handler
responds HTTP 500, never performs the protected metrics fetch, and never
produces an allow (HTTP 200) decision. -/
theorem c5_fail_closed (fs : FallibleStore) (u o : String) (e : StoreError)
    (h : fs.userRole u o = .error e) :
    dashboardHandlerFallible fs u o =
      ({ status := 500, body := .msg "Failed to fetch dashboard metrics" },
       ["getUserRole"]) ∧
    "getDashboardMetrics" ∉ (dashboardHandlerFallible fs u o).2 ∧
    (dashboardHandlerFallible fs u o).1.status ≠ 200 := by
  have heq : dashboardHandlerFallible fs u o =
      ({ status := 500, body := .msg "Failed to fetch dashboard metrics" },
       ["getUserRole"]) := by
    unfold dashboardHandlerFallible
    rw [h]
  refine ⟨heq, ?_, ?_⟩
  · rw [heq]
    simp
  · rw [heq]
    simp

/-- C5 witness: a store whose membership lookup always fails yields HTTP 500
with only the role lookup in the call trace. -/
theorem c5_fail_closed_witness :
    dashboardHandlerFallible errStore "alice" "org1" =
      ({ status := 500, body := .msg "Failed to fetch dashboard metrics" },
       ["getUserRole"]) :=
  (c5_fail_closed errStore "alice" "org1" .unavailable rfl).1

/-- C6 counterexample: a request whose principal identifier is missing, or
present but empty, fails the only identifier validation the code performs, yet
validateOrganizationAccess rejects it with HTTP 401, not the HTTP 400 the
claim asserts for a principal identifier failing basic format validation. -/
theorem c6_counterexample :
    validateOrganizationAccess
      { userId := none, paramsOrgId := some "org1", bodyOrganizationId := none } =
      .respond { status := 401, body := .msg "Authentication required" } ∧
    validateOrganizationAccess
      { userId := some "", paramsOrgId := some "org1", bodyOrganizationId := none } =
      .respond { status := 401, body := .msg "Authentication required" } ∧
    (401 : Nat) ≠ 400 := by
  refine ⟨rfl, rfl, by decide⟩

/-- C6 (amended): validateOrganizationAccess rejects a missing or empty
principal with HTTP 401 and a missing or empty organization identifier with
HTTP 400, before any store call (the middleware performs none), and otherwise
passes through; no further format validation exists. -/
theorem c6_presence_validation (req : MiddlewareRequest) :
    (req.userId = none ∨ req.userId = some "" →
      validateOrganizationAccess req =
        .respond { status := 401, body := .msg "Authentication required" }) ∧
    (∀ uid, req.userId = some uid → uid ≠ "" →
      (jsOrString req.paramsOrgId req.bodyOrganizationId = none ∨
       jsOrString req.paramsOrgId req.bodyOrganizationId = some "") →
      validateOrganizationAccess req =
        .respond { status := 400, body := .msg "Organization ID required" }) ∧
    (∀ uid oid, req.userId = some uid → uid ≠ "" →
      jsOrString req.paramsOrgId req.bodyOrganizationId = some oid → oid ≠ "" →
      validateOrganizationAccess req = .next) := by
  refine ⟨?_, ?_, ?_⟩
  · rintro (h | h) <;> simp [validateOrganizationAccess, h]
  · rintro uid h hne (ho | ho) <;>
      simp [validateOrganizationAccess, h, hne, ho]
  · intro uid oid h hne ho hone
    simp [validateOrganizationAccess, h, hne, ho, hone]

/-- C6 witness: a missing organization id yields HTTP 400 and a complete
request passes through. -/
theorem c6_presence_validation_witness :
    validateOrganizationAccess
      { userId := some "alice", paramsOrgId := none, bodyOrganizationId := none } =
      .respond { status := 400, body := .msg "Organization ID required" } ∧
    validateOrganizationAccess
      { userId := some "alice", paramsOrgId := some "org1",
        bodyOrganizationId := none } = .next := by
  have h1 := c6_presence_validation
    { userId := some "alice", paramsOrgId := none, bodyOrganizationId := none }
  have h2 := c6_presence_validation
    { userId := some "alice", paramsOrgId := some "org1",
      bodyOrganizationId := none }
  exact ⟨h1.2.1 "alice" rfl (by decide) (Or.inl rfl),
    h2.2.2 "alice" "org1" rfl (by decide) rfl (by decide)⟩

/-- C7: species creation succeeds only for a principal holding an active owner
or admin membership, and is denied with HTTP 403 for principals holding only
editor or viewer roles or no membership at all. -/
theorem c7_species_admin_write (s : Store) (u : String) (data : InsertSpecies)
    (nid : String) :
    ((createSpeciesHandler s u data nid).2.status = 200 →
      ∃ m ∈ s.organizationMembers, m.userId = u ∧ m.isActive = true ∧
        (m.role = "owner" ∨ m.role = "admin")) ∧
    ((∀ m ∈ s.organizationMembers, m.userId = u → m.isActive = true →
        m.role ≠ "owner" ∧ m.role ≠ "admin") →
      createSpeciesHandler s u data nid = (s, speciesDenied) ∧
      (createSpeciesHandler s u data nid).2.status = 403) := by
  constructor
  · intro hok
    have hdef : createSpeciesHandler s u data nid =
        (if ((getUserOrganizations s u).length == 0 ||
            !(((getUserOrganizations s u).map (fun org =>
              getUserRole s u org.id == some "owner" ||
              getUserRole s u org.id == some "admin")).any (fun b => b)))
          then (s, speciesDenied)
          else ((createSpecies s data nid).1,
            { status := 200, body := .speciesData (createSpecies s data nid).2 })) :=
      rfl
    rw [hdef] at hok
    cases hcond : ((getUserOrganizations s u).length == 0 ||
        !(((getUserOrganizations s u).map (fun org =>
          getUserRole s u org.id == some "owner" ||
          getUserRole s u org.id == some "admin")).any (fun b => b))) with
    | true =>
      rw [hcond] at hok
      simp [speciesDenied] at hok
    | false =>
      cases hany : ((getUserOrganizations s u).map (fun org =>
          getUserRole s u org.id == some "owner" ||
          getUserRole s u org.id == some "admin")).any (fun b => b) with
      | false =>
        rw [hany] at hcond
        simp at hcond
      | true =>
        rw [List.any_eq_true] at hany
        obtain ⟨b, hb, hbt⟩ := hany
        obtain ⟨org, _, hbeq⟩ := List.mem_map.mp hb
        have hbtrue : b = true := by simpa using hbt
        rw [hbtrue] at hbeq
        have hcases : getUserRole s u org.id = some "owner" ∨
            getUserRole s u org.id = some "admin" := by
          have hx := hbeq
          simp only [Bool.or_eq_true, beq_iff_eq] at hx
          exact hx
        rcases hcases with h1 | h1
        · obtain ⟨m, hm, hmu, _, hma, hmr⟩ :=
            getUserRole_eq_some_elim s u org.id "owner" h1
          exact ⟨m, hm, hmu, hma, Or.inl hmr⟩
        · obtain ⟨m, hm, hmu, _, hma, hmr⟩ :=
            getUserRole_eq_some_elim s u org.id "admin" h1
          exact ⟨m, hm, hmu, hma, Or.inr hmr⟩
  · intro hall
    have hd := createSpeciesHandler_denied s u data nid hall
    exact ⟨hd, by rw [hd]; rfl⟩

/-- C7 witness: carol, an active viewer of org1 only, is denied species
creation with HTTP 403. -/
theorem c7_species_admin_write_witness :
    createSpeciesHandler sampleStore "carol"
      { name := "Elk", category := "game" } "sp9" =
      (sampleStore, speciesDenied) :=
  ((c7_species_admin_write sampleStore "carol"
    { name := "Elk", category := "game" } "sp9").2 (by decide)).1

/-- C8 counterexample: on the species-creation endpoint, a principal with no
membership at all and a principal with only a viewer role receive identical
HTTP 403 responses — but the shared body is the species-specific denial
message, not the body message Access denied that the claim asserts for every
protected endpoint. -/
theorem c8_counterexample :
    (createSpeciesHandler sampleStore "mallory"
        { name := "Elk", category := "game" } "sp1").2 =
      (createSpeciesHandler sampleStore "carol"
        { name := "Elk", category := "game" } "sp1").2 ∧
    (createSpeciesHandler sampleStore "mallory"
        { name := "Elk", category := "game" } "sp1").2.status = 403 ∧
    (createSpeciesHandler sampleStore "mallory"
        { name := "Elk", category := "game" } "sp1").2 ≠ accessDenied := by
  refine ⟨by decide, by decide, by decide⟩

/-- C8 (amended): a principal with no active membership and a principal whose
active role is excluded from the action class's allowed set receive identical
denial responses on every protected endpoint — HTTP 403 with body message
Access denied on the organization-scoped endpoints, and HTTP 403 with the
species-specific message on species creation — so responses never leak whether
a membership exists. -/
theorem c8_indistinguishable_denials (s : Store) (O u1 u2 : String)
    (h1 : ∀ m ∈ s.organizationMembers, m.userId = u1 → m.organizationId = O →
      m.isActive = false)
    (h2 : ∀ m ∈ s.organizationMembers, m.userId = u2 → m.organizationId = O →
      m.isActive = true → writeRoles.contains m.role = false)
    (g1 : ∀ m ∈ s.organizationMembers, m.userId = u1 → m.isActive = false)
    (g2 : ∀ m ∈ s.organizationMembers, m.userId = u2 → m.isActive = true →
      m.role ≠ "owner" ∧ m.role ≠ "admin") :
    (∀ (data : InsertCustomer) (nid : String) (now : Nat),
      data.organizationId = O →
      createCustomerHandler s u1 data nid now = (s, accessDenied) ∧
      createCustomerHandler s u2 data nid now = (s, accessDenied)) ∧
    (∀ (data : InsertProcessingRecord) (nid : String), data.organizationId = O →
      createProcessingRecordHandler s u1 data nid = (s, accessDenied) ∧
      createProcessingRecordHandler s u2 data nid = (s, accessDenied)) ∧
    (∀ (data : InsertInventoryItem) (nid : String), data.organizationId = O →
      createInventoryItemHandler s u1 data nid = (s, accessDenied) ∧
      createInventoryItemHandler s u2 data nid = (s, accessDenied)) ∧
    (∀ (data : InsertInvoice) (nid : String), data.organizationId = O →
      createInvoiceHandler s u1 data nid = (s, accessDenied) ∧
      createInvoiceHandler s u2 data nid = (s, accessDenied)) ∧
    (∀ (data : InsertCutInstruction) (nid : String), data.organizationId = O →
      createCutInstructionHandler s u1 data nid = (s, accessDenied) ∧
      createCutInstructionHandler s u2 data nid = (s, accessDenied)) ∧
    (∀ (cid : String) (c : Customer) (data : CustomerUpdate) (now : Nat),
      getCustomer s cid = some c → c.organizationId = O →
      updateCustomerHandler s u1 cid data now = (s, accessDenied) ∧
      updateCustomerHandler s u2 cid data now = (s, accessDenied)) ∧
    (∀ (cid : String) (c : Customer) (now : Nat),
      getCustomer s cid = some c → c.organizationId = O →
      deleteCustomerHandler s u1 cid now = (s, accessDenied) ∧
      deleteCustomerHandler s u2 cid now = (s, accessDenied)) ∧
    (∀ (data : InsertSpecies) (nid : String),
      createSpeciesHandler s u1 data nid = (s, speciesDenied) ∧
      createSpeciesHandler s u2 data nid = (s, speciesDenied)) := by
  have hw1 : hasWriteRole s u1 O = false := by
    unfold hasWriteRole
    rw [getUserRole_eq_none_of_no_active s u1 O h1]
  have hw2 : hasWriteRole s u2 O = false := by
    unfold hasWriteRole
    cases hg : getUserRole s u2 O with
    | none => rfl
    | some r =>
      show writeRoles.contains r = false
      obtain ⟨m, hm, hmu, hmo, hma, hmr⟩ := getUserRole_eq_some_elim s u2 O r hg
      rw [← hmr]
      exact h2 m hm hmu hmo hma
  have g1x : ∀ m ∈ s.organizationMembers, m.userId = u1 → m.isActive = true →
      m.role ≠ "owner" ∧ m.role ≠ "admin" := by
    intro m hm hmu hma
    rw [g1 m hm hmu] at hma
    exact absurd hma (by simp)
  refine ⟨?_, ?_, ?_, ?_, ?_, ?_, ?_, ?_⟩
  · intro data nid now hdo
    exact ⟨createCustomerHandler_denied s u1 data nid now (by rw [hdo]; exact hw1),
      createCustomerHandler_denied s u2 data nid now (by rw [hdo]; exact hw2)⟩
  · intro data nid hdo
    exact ⟨createProcessingRecordHandler_denied s u1 data nid
        (by rw [hdo]; exact hw1),
      createProcessingRecordHandler_denied s u2 data nid (by rw [hdo]; exact hw2)⟩
  · intro data nid hdo
    exact ⟨createInventoryItemHandler_denied s u1 data nid (by rw [hdo]; exact hw1),
      createInventoryItemHandler_denied s u2 data nid (by rw [hdo]; exact hw2)⟩
  · intro data nid hdo
    exact ⟨createInvoiceHandler_denied s u1 data nid (by rw [hdo]; exact hw1),
      createInvoiceHandler_denied s u2 data nid (by rw [hdo]; exact hw2)⟩
  · intro data nid hdo
    exact ⟨createCutInstructionHandler_denied s u1 data nid (by rw [hdo]; exact hw1),
      createCutInstructionHandler_denied s u2 data nid (by rw [hdo]; exact hw2)⟩
  · intro cid c data now hc hco
    exact ⟨updateCustomerHandler_denied s u1 cid c data now hc
        (by rw [hco]; exact hw1),
      updateCustomerHandler_denied s u2 cid c data now hc (by rw [hco]; exact hw2)⟩
  · intro cid c now hc hco
    exact ⟨deleteCustomerHandler_denied s u1 cid c now hc (by rw [hco]; exact hw1),
      deleteCustomerHandler_denied s u2 cid c now hc (by rw [hco]; exact hw2)⟩
  · intro data nid
    exact ⟨createSpeciesHandler_denied s u1 data nid g1x,
      createSpeciesHandler_denied s u2 data nid g2⟩

/-- C8 witness: mallory (no membership) and carol (viewer of org1) receive the
same denial on customer creation in org1 and on species creation. -/
theorem c8_indistinguishable_denials_witness :
    createCustomerHandler sampleStore "mallory"
      { organizationId := "org1", name := "W" } "c7" 30 =
      (sampleStore, accessDenied) ∧
    createCustomerHandler sampleStore "carol"
      { organizationId := "org1", name := "W" } "c7" 30 =
      (sampleStore, accessDenied) ∧
    createSpeciesHandler sampleStore "carol"
      { name := "Bison", category := "game" } "sp2" =
      (sampleStore, speciesDenied) := by
  have h := c8_indistinguishable_denials sampleStore "org1" "mallory" "carol"
    (by decide) (by decide) (by decide) (by decide)
  have hcc := h.1 { organizationId := "org1", name := "W" } "c7" 30 rfl
  have hsp := h.2.2.2.2.2.2.2 { name := "Bison", category := "game" } "sp2"
  exact ⟨hcc.1, hcc.2, hsp.2⟩

/-- C9: on customer update and delete, the existence check precedes the
authorization check — when no customer has the id, every principal receives
HTTP 404 Customer not found, membership or not. -/
theorem c9_not_found_before_auth (s : Store) (u cid : String)
    (data : CustomerUpdate) (now : Nat) (h : getCustomer s cid = none) :
    updateCustomerHandler s u cid data now =
      (s, { status := 404, body := .msg "Customer not found" }) ∧
    deleteCustomerHandler s u cid now =
      (s, { status := 404, body := .msg "Customer not found" }) := by
  refine ⟨?_, ?_⟩
  · simp [updateCustomerHandler, h]
  · simp [deleteCustomerHandler, h]

/-- C9 witness: mallory, who belongs to no organization, still learns via
HTTP 404 that customer ghost does not exist. -/
theorem c9_not_found_before_auth_witness :
    updateCustomerHandler sampleStore "mallory" "ghost"
      { organizationId := none, name := none, isActive := none } 3 =
      (sampleStore, { status := 404, body := .msg "Customer not found" }) :=
  (c9_not_found_before_auth sampleStore "mallory" "ghost"
    { organizationId := none, name := none, isActive := none } 3 (by decide)).1

/-- C10: deleteCustomer is a soft delete — the row survives with
isActive set to false and updatedAt restamped, the organization listing no
longer contains it, fetching by id still returns it, and a member with a
write role in the owning organization can still update and re-delete it. -/
theorem c10_soft_delete (s : Store) (cid : String) (c : Customer) (now : Nat)
    (hc : getCustomer s cid = some c) :
    getCustomer (deleteCustomer s cid now) cid =
      some { c with isActive := false, updatedAt := now } ∧
    (deleteCustomer s cid now).customers.length = s.customers.length ∧
    (∀ orgId : String, ∀ x ∈ getCustomers (deleteCustomer s cid now) orgId,
      x.id ≠ cid) ∧
    (∀ (u2 r : String) (data : CustomerUpdate) (now2 : Nat),
      getUserRole s u2 c.organizationId = some r → r ∈ writeRoles →
      (updateCustomerHandler (deleteCustomer s cid now) u2 cid data now2).2.status
        = 200 ∧
      deleteCustomerHandler (deleteCustomer s cid now) u2 cid now2 =
        (deleteCustomer (deleteCustomer s cid now) cid now2,
         { status := 200, body := .msg "Customer deleted successfully" })) := by
  have hpres : ∀ x : Customer,
      ((if x.id == cid then { x with isActive := false, updatedAt := now }
        else x).id == cid) = (x.id == cid) := by
    intro x
    by_cases hx : (x.id == cid) = true
    · simp [hx]
    · have hx0 : (x.id == cid) = false := by simpa using hx
      simp [hx0]
  have hc2 : s.customers.find? (fun x => x.id == cid) = some c := hc
  have hcid0 := List.find?_some hc2
  have hcid : (c.id == cid) = true := hcid0
  have h1 : getCustomer (deleteCustomer s cid now) cid =
      some { c with isActive := false, updatedAt := now } := by
    unfold getCustomer deleteCustomer
    rw [find?_map_pres _ _ hpres]
    rw [show s.customers.find? (fun c => c.id == cid) = some c from hc2]
    have hceq : c.id = cid := by simpa using hcid
    simp [hceq]
  refine ⟨h1, by simp [deleteCustomer], ?_, ?_⟩
  · intro orgId x hx hxid
    unfold getCustomers at hx
    rw [mem_sortByCreatedAtDesc] at hx
    rw [List.mem_filter] at hx
    obtain ⟨hmem, hfilt⟩ := hx
    have hact : x.isActive = true := by
      simp only [Bool.and_eq_true] at hfilt
      exact hfilt.2
    have hmem2 : x ∈ s.customers.map (fun c =>
        if c.id == cid then { c with isActive := false, updatedAt := now }
        else c) := hmem
    obtain ⟨y, _, hfy⟩ := List.mem_map.mp hmem2
    by_cases hyid : (y.id == cid) = true
    · rw [if_pos hyid] at hfy
      rw [← hfy] at hact
      simp at hact
    · rw [if_neg (by simpa using hyid)] at hfy
      rw [← hfy] at hxid
      exact hyid (by simp [hxid])
  · intro u2 r data now2 hg hr
    have hg2 : getUserRole (deleteCustomer s cid now) u2
        ({ c with isActive := false, updatedAt := now } : Customer).organizationId
        = some r := hg
    have hrc : writeRoles.contains r = true := by simpa using hr
    refine ⟨?_, ?_⟩
    · exact updateCustomerHandler_allowed (deleteCustomer s cid now) u2 cid
        { c with isActive := false, updatedAt := now } data now2 r h1 hg2 hrc
    · exact deleteCustomerHandler_allowed (deleteCustomer s cid now) u2 cid
        { c with isActive := false, updatedAt := now } now2 r h1 hg2 hrc

/-- C10 witness: after soft-deleting cust1, the row is still fetchable by id
with isActive false, and alice (owner of org1) can still update it. -/
theorem c10_soft_delete_witness :
    getCustomer (deleteCustomer sampleStore "cust1" 50) "cust1" =
      some { id := "cust1", organizationId := "org1", name := "Acme",
             isActive := false, createdAt := 5, updatedAt := 50 } ∧
    (updateCustomerHandler (deleteCustomer sampleStore "cust1" 50) "alice"
      "cust1" { organizationId := none, name := some "Acme2", isActive := none }
      60).2.status = 200 := by
  have h := c10_soft_delete sampleStore "cust1"
    { id := "cust1", organizationId := "org1", name := "Acme",
      isActive := true, createdAt := 5, updatedAt := 5 } 50 (by decide)
  exact ⟨h.1, (h.2.2.2 "alice" "owner"
    { organizationId := none, name := some "Acme2", isActive := none } 60
    (by decide) (by decide)).1⟩

end MeatMath
